import Mathlib

/-!
Shallow embedding of the insanity parameter-validation library
(modules sanity_checks.py and iterable_check_functions.py).

Python values are modelled by the inductive type PyVal, Python types by
PyType, and isinstance by instanceOf (including the bool <: int subclass
relation).  Each check function returns a result instead of raising: a
Bool (true = returns silently, false = raises) where only success/failure
matters, or an outcome enumeration tagging the raise site where the error
kind matters.  Numeric range checks are modelled over the rationals.
-/

namespace Insanity

/-- A small universe of Python values: None, bools, ints, strings, lists. -/
inductive PyVal where
  | vNone
  | vBool (b : Bool)
  | vInt (n : Int)
  | vStr (s : String)
  | vList (xs : List PyVal)

/-- Structural equality on PyVal (the meaning of == on values that share a
shape; lists compare elementwise). -/
def PyVal.beq : PyVal → PyVal → Bool
  | .vNone, .vNone => true
  | .vBool a, .vBool b => a == b
  | .vInt a, .vInt b => a == b
  | .vStr a, .vStr b => a == b
  | .vList a, .vList b => listBeq a b
  | _, _ => false
where listBeq : List PyVal → List PyVal → Bool
  | [], [] => true
  | x :: xs, y :: ys => PyVal.beq x y && listBeq xs ys
  | _, _ => false

instance : BEq PyVal := ⟨PyVal.beq⟩

/-- The Python identity test `v is None` on the modelled universe. -/
def isNoneVal : PyVal → Bool
  | .vNone => true
  | _ => false

/-- A small universe of Python types. -/
inductive PyType where
  | tNoneType
  | tBool
  | tInt
  | tStr
  | tList
  | tObject
deriving DecidableEq, Repr

/-- Python isinstance on the modelled universe.  Every value is an instance
of object, and bool is a subclass of int, as in CPython. -/
def instanceOf : PyVal → PyType → Bool
  | _, .tObject => true
  | .vNone, .tNoneType => true
  | .vBool _, .tBool => true
  | .vBool _, .tInt => true
  | .vInt _, .tInt => true
  | .vStr _, .tStr => true
  | .vList _, .tList => true
  | _, _ => false

/-- Python == (operator.eq) on the modelled universe: structural equality,
except that bools compare equal to the ints 0 and 1 as in CPython. -/
def pyEq (a b : PyVal) : Bool :=
  match a, b with
  | .vInt x, .vBool y => x == (if y then 1 else 0)
  | .vBool x, .vInt y => (if x then (1 : Int) else 0) == y
  | _, _ => a == b

/-- isinstance(v, collections.Iterable) on the modelled universe:
lists and strings are iterable. -/
def isIterable : PyVal → Bool
  | .vList _ => true
  | .vStr _ => true
  | _ => false

/-- The element sequence obtained by iterating a Python value: a list yields
its elements, a string yields its one-character substrings. -/
def iterElems : PyVal → List PyVal
  | .vList xs => xs
  | .vStr s => s.data.map (fun c => .vStr (String.mk [c]))
  | _ => []

/-- sanity_checks.sanitize_type, lines 352-455: succeed when the value is an
acceptably absent None, or is an instance of the single target type
(CASE 1), or of some type in the iterable of target types (CASE 2);
otherwise raise TypeError.  true = return silently, false = raise. -/
def sanitize_type (arg_value : PyVal) (target_type : PyType ⊕ List PyType)
    (none_allowed : Bool) : Bool :=
  if isNoneVal arg_value && none_allowed then true
  else
    match target_type with
    | .inl t => instanceOf arg_value t
    | .inr ts => ts.any (fun t => instanceOf arg_value t)

/-- Outcome of sanitize_range, tagging the raise sites: configError for the
TypeError/ValueError raised while sanitizing the arguments (no bound given,
or minimum > maximum), rangeViolation for the final ValueError. -/
inductive RangeOutcome where
  | ok
  | configError
  | rangeViolation
deriving DecidableEq, Repr

/-- The minimum > maximum test of sanity_checks.py line 285 (only performed
when both bounds are given). -/
def minGtMax : Option ℚ → Option ℚ → Bool
  | some mn, some mx => decide (mn > mx)
  | _, _ => false

/-- The out_of_range expression of sanity_checks.py lines 336-345. -/
def rangeOutOfRange (arg_value : ℚ) (minimum maximum : Option ℚ)
    (min_inclusive max_inclusive : Bool) : Bool :=
  (match minimum with
   | some mn =>
       (min_inclusive && decide (arg_value < mn)) ||
       (!min_inclusive && decide (arg_value ≤ mn))
   | none => false) ||
  (match maximum with
   | some mx =>
       (max_inclusive && decide (arg_value > mx)) ||
       (!max_inclusive && decide (arg_value ≥ mx))
   | none => false)

/-- sanity_checks.sanitize_range, lines 245-349, over the rationals.
After the argument sanitization (at least one bound, minimum ≤ maximum),
a complement check with a single bound is rewritten into a non-complement
check on the opposite side with negated inclusivity (lines 293-304), then
the out_of_range test of lines 336-347 decides the outcome. -/
def sanitize_range (arg_value : ℚ) (minimum maximum : Option ℚ)
    (min_inclusive max_inclusive complement : Bool) : RangeOutcome :=
  if minimum = none ∧ maximum = none then .configError
  else if minGtMax minimum maximum then .configError
  else
    let st :=
      if complement then
        match minimum, maximum with
        | none, mx => (mx, (none : Option ℚ), !max_inclusive, max_inclusive, false)
        | some mn, none => ((none : Option ℚ), some mn, min_inclusive, !min_inclusive, false)
        | some mn, some mx => (some mn, some mx, min_inclusive, max_inclusive, true)
      else (minimum, maximum, min_inclusive, max_inclusive, complement)
    match st with
    | (mn, mx, mi, ma, comp) =>
      let oor := rangeOutOfRange arg_value mn mx mi ma
      let oor := if comp then !oor else oor
      if oor then .rangeViolation else .ok

/-- Modelled from the spec: the naive in-range test honoring inclusivity,
with a missing bound treated as minus/plus infinity (a missing bound
constrains nothing). -/
def naiveInRange (arg_value : ℚ) (minimum maximum : Option ℚ)
    (min_inclusive max_inclusive : Bool) : Bool :=
  (match minimum with
   | none => true
   | some mn => if min_inclusive then decide (mn ≤ arg_value) else decide (mn < arg_value)) &&
  (match maximum with
   | none => true
   | some mx => if max_inclusive then decide (arg_value ≤ mx) else decide (arg_value < mx))

/-- Modelled from the spec: the naive complement evaluation accepts exactly
the values that fail the naive in-range test. -/
def naiveComplementAccepts (arg_value : ℚ) (minimum maximum : Option ℚ)
    (min_inclusive max_inclusive : Bool) : Bool :=
  ! naiveInRange arg_value minimum maximum min_inclusive max_inclusive

/-- The loop of sanity_checks.py lines 534-543: walk the expanded target
values, and on the first one equal to the tested value raise (complement)
or return silently (non-complement); when the loop ends without a match,
return silently (complement) or raise (non-complement). -/
def scanValue (complement : Bool) (test : PyVal → Bool) : List PyVal → Bool
  | [] => complement
  | t :: ts => if test t then !complement else scanValue complement test ts

/-- sanity_checks.sanitize_value, lines 458-543: an acceptably absent value
passes; otherwise either a single equality test against the unexpanded
target (CASE 1) or the scan over the expanded target (CASE 2) decides.
true = return silently, false = raise ValueError. -/
def sanitize_value (arg_value target_value : PyVal)
    (complement expand_target none_allowed : Bool)
    (equality_fn : PyVal → PyVal → Bool) : Bool :=
  if none_allowed && isNoneVal arg_value then true
  else if !expand_target || !isIterable target_value then
    !((complement && equality_fn arg_value target_value) ||
      (!complement && !equality_fn arg_value target_value))
  else
    scanValue complement (equality_fn arg_value) (iterElems target_value)

/-- iterable_check_functions.sanitize_value_fn, lines 121-170: curry
sanitize_value with everything except arg_value predefined (the error
message it also prepares does not affect accept/reject). -/
def sanitize_value_fn (target_value : PyVal)
    (complement expand_target none_allowed : Bool)
    (equality_fn : PyVal → PyVal → Bool) : PyVal → Bool :=
  fun x => sanitize_value x target_value complement expand_target none_allowed equality_fn

/-- Outcome of sanitize_iterable, tagging the raise sites of
sanity_checks.py: typeMismatch for the TypeErrors raised by the arg_value
presence check (line 110) and the element-type phase (line 217),
configError for the errors about the constraint descriptor itself
(lines 131-173 and a minimum/maximum conflict surfacing from the reused
range check), nullElement for line 212, lengthViolation for a failed
length test (lines 221 and 223), customViolation for line 242. -/
inductive IterOutcome where
  | ok
  | configError
  | typeMismatch
  | nullElement
  | lengthViolation
  | customViolation
deriving DecidableEq, Repr

/-- Whether an optional length bound is present and negative (failing the
sanitize_range(minimum=0) argument checks of lines 131-139). -/
def negLen : Option Int → Bool
  | some n => decide (n < 0)
  | none => false

/-- The null-element test of sanity_checks.py line 211: elements may not be
None and some element is None. -/
def nullElementsPresent (xs : List PyVal) (none_elements_allowed : Bool) : Bool :=
  !none_elements_allowed && xs.any isNoneVal

/-- The element-type phase of sanity_checks.py lines 215-217: when an
elements type is given, some element fails the type check (the loop raises
at that element). -/
def typePhaseRejects (xs : List PyVal) (elements_type : Option (PyType ⊕ List PyType))
    (none_elements_allowed : Bool) : Bool :=
  match elements_type with
  | some tt => xs.any (fun e => ! sanitize_type e tt none_elements_allowed)
  | none => false

/-- The exact-length test of sanity_checks.py lines 220-221, delegated to
sanitize_value with its default arguments. -/
def exactLengthRejects (xs : List PyVal) (target_length : Option Int) : Bool :=
  match target_length with
  | some tl => ! sanitize_value (.vInt (xs.length : Int)) (.vInt tl) false true true pyEq
  | none => false

/-- The minimum/maximum length test of sanity_checks.py lines 222-231,
delegated to sanitize_range with inclusive bounds (only performed when a
bound is given). -/
def lengthRangeOutcome (xs : List PyVal) (min_length max_length : Option Int) :
    RangeOutcome :=
  if min_length.isNone && max_length.isNone then .ok
  else
    sanitize_range ((xs.length : Int) : ℚ)
      (min_length.map (fun n => ((n : Int) : ℚ)))
      (max_length.map (fun n => ((n : Int) : ℚ)))
      true true false

/-- The custom-callback phase of sanity_checks.py lines 234-242: when a
callback is given, some non-None element makes it raise (the loop stops
at that element and the failure is re-raised). -/
def callbackPhaseRejects (xs : List PyVal) (element_check_fn : Option (PyVal → Bool)) :
    Bool :=
  match element_check_fn with
  | some f => xs.any (fun e => !isNoneVal e && !f e)
  | none => false

/-- The "Perform Requested Sanity Check" section of
sanity_checks.sanitize_iterable for a present iterable, lines 210-242:
the phases in order: null-element check, per-element type check,
exact-length check, minimum/maximum length check, custom per-element
callback. -/
def sanitize_iterable_body
    (xs : List PyVal)
    (elements_type : Option (PyType ⊕ List PyType))
    (target_length min_length max_length : Option Int)
    (none_elements_allowed : Bool)
    (element_check_fn : Option (PyVal → Bool)) : IterOutcome :=
  if nullElementsPresent xs none_elements_allowed then .nullElement
  else if typePhaseRejects xs elements_type none_elements_allowed then .typeMismatch
  else if exactLengthRejects xs target_length then .lengthViolation
  else
    match lengthRangeOutcome xs min_length max_length with
    | .configError => .configError
    | .rangeViolation => .lengthViolation
    | .ok =>
        if callbackPhaseRejects xs element_check_fn then .customViolation else .ok

/-- sanity_checks.sanitize_iterable, lines 67-242.  The argument
sanitization of lines 106-173 comes first (arg_value present or
acceptably absent, length bounds non-negative, at least one constraint
supplied, exact length not combined with a minimum/maximum), then an
absent arg_value returns silently (line 178), then the four phases of
sanitize_iterable_body run on the elements. -/
def sanitize_iterable
    (arg_value : Option (List PyVal))
    (elements_type : Option (PyType ⊕ List PyType))
    (target_length min_length max_length : Option Int)
    (none_allowed none_elements_allowed : Bool)
    (element_check_fn : Option (PyVal → Bool)) : IterOutcome :=
  if arg_value.isNone && !none_allowed then .typeMismatch
  else if negLen target_length then .configError
  else if negLen min_length then .configError
  else if negLen max_length then .configError
  else if elements_type.isNone && target_length.isNone && min_length.isNone &&
          max_length.isNone && element_check_fn.isNone then .configError
  else if target_length.isSome && (min_length.isSome || max_length.isSome) then .configError
  else
    match arg_value with
    | none => .ok
    | some xs =>
        sanitize_iterable_body xs elements_type target_length min_length max_length
          none_elements_allowed element_check_fn

/-! ## Helper lemmas -/

theorem isNoneVal_eq_true_iff (v : PyVal) : isNoneVal v = true ↔ v = .vNone := by
  cases v <;> simp [isNoneVal]

theorem isNoneVal_eq_false_iff (v : PyVal) : isNoneVal v = false ↔ v ≠ .vNone := by
  cases v <;> simp [isNoneVal]

theorem negLen_eq_false {o : Option Int} (h : ∀ n ∈ o, 0 ≤ n) : negLen o = false := by
  cases o with
  | none => rfl
  | some n =>
      have := h n rfl
      simp [negLen]
      omega

/-- The loop over the expanded target succeeds exactly when in
non-complement mode some value matches, or in complement mode none does. -/
theorem scanValue_eq_true_iff (c : Bool) (p : PyVal → Bool) (l : List PyVal) :
    scanValue c p l = true ↔
      ((c = false ∧ ∃ t ∈ l, p t = true) ∨ (c = true ∧ ∀ t ∈ l, p t = false)) := by
  induction l with
  | nil => cases c <;> simp [scanValue]
  | cons x xs ih =>
      by_cases hx : p x = true
      · cases c <;> simp [scanValue, hx]
      · have hx' : p x = false := by simp_all
        cases c <;> simp [scanValue, hx', ih]

/-- Under a well-formed constraint descriptor, checking a present iterable
is checking its elements with the four phases. -/
theorem sanitize_iterable_some_eq (xs : List PyVal)
    (et : Option (PyType ⊕ List PyType)) (tl mn mx : Option Int) (na nea : Bool)
    (f : Option (PyVal → Bool))
    (htl : ∀ n ∈ tl, 0 ≤ n) (hmn : ∀ n ∈ mn, 0 ≤ n) (hmx : ∀ n ∈ mx, 0 ≤ n)
    (hconstraint : et ≠ none ∨ tl ≠ none ∨ mn ≠ none ∨ mx ≠ none ∨ f ≠ none)
    (hconflict : tl = none ∨ (mn = none ∧ mx = none)) :
    sanitize_iterable (some xs) et tl mn mx na nea f =
      sanitize_iterable_body xs et tl mn mx nea f := by
  have h1 : negLen tl = false := negLen_eq_false htl
  have h2 : negLen mn = false := negLen_eq_false hmn
  have h3 : negLen mx = false := negLen_eq_false hmx
  rcases et with _ | et' <;> rcases tl with _ | t <;> rcases mn with _ | m <;>
    rcases mx with _ | M <;> rcases f with _ | g <;>
    simp_all [sanitize_iterable]

/-! ## Claims -/

/-- Claim C10: with none_allowed left at its default of True, sanitize_value
returns silently for an absent value whatever the target, complement flag,
expand_target flag, and equality function are — even under complement with
a target equal to or containing None. -/
theorem sanitize_value_accepts_none_by_default (target : PyVal)
    (complement expand_target : Bool) (equality_fn : PyVal → PyVal → Bool) :
    sanitize_value .vNone target complement expand_target true equality_fn = true := by
  simp [sanitize_value, isNoneVal]

/-- Claim C5: sanitize_type returns silently exactly when the value is an
acceptably absent None or an instance of the single target type,
respectively of some type in the iterable of allowed types; otherwise it
raises the type-mismatch TypeError. -/
theorem sanitize_type_succeeds_iff (v : PyVal) (na : Bool) :
    (∀ t : PyType, sanitize_type v (.inl t) na = true ↔
        ((v = .vNone ∧ na = true) ∨ instanceOf v t = true))
    ∧ (∀ ts : List PyType, sanitize_type v (.inr ts) na = true ↔
        ((v = .vNone ∧ na = true) ∨ ∃ t ∈ ts, instanceOf v t = true)) := by
  constructor
  · intro t
    by_cases hv : v = PyVal.vNone
    · subst hv
      cases na <;> simp [sanitize_type, isNoneVal]
    · have hf : isNoneVal v = false := (isNoneVal_eq_false_iff v).mpr hv
      simp [sanitize_type, hf, hv]
  · intro ts
    by_cases hv : v = PyVal.vNone
    · subst hv
      cases na <;> simp [sanitize_type, isNoneVal, List.any_eq_true]
    · have hf : isNoneVal v = false := (isNoneVal_eq_false_iff v).mpr hv
      simp [sanitize_type, hf, hv, List.any_eq_true]

/-- Counterexample to claim C4 as stated over every value: at the absent
value None with the default none_allowed = True, an all-false equality
predicate and the non-empty target list [1] in non-complement mode, the
value check succeeds although no target value matches, because the
absent-value escape of line 497 fires before the scan. -/
theorem sanitize_value_expand_iff_cex :
    sanitize_value PyVal.vNone (.vList [PyVal.vInt 1]) false true true
        (fun _ _ => false) = true
    ∧ ¬((false = false ∧
          ∃ t ∈ [PyVal.vInt 1], (fun (_ _ : PyVal) => false) PyVal.vNone t = true) ∨
        (false = true ∧
          ∀ t ∈ [PyVal.vInt 1], (fun (_ _ : PyVal) => false) PyVal.vNone t = false)) := by
  constructor
  · rfl
  · simp

/-- Claim C4 (amended): whenever the absent-value escape is not taken (the
value is not an absent None with none_allowed), sanitize_value with
expand_target and an iterable target returns silently exactly when
non-complement and some target value matches under the equality function,
or complement and none does; moreover the scan stops at the first
matching value: its verdict on a list headed by a match does not depend
on the remaining values, succeeding in non-complement mode and failing
in complement mode. -/
theorem sanitize_value_expand_iff (v : PyVal) (ts : List PyVal) (c na : Bool)
    (eqf : PyVal → PyVal → Bool) (h : ¬(na = true ∧ v = PyVal.vNone)) :
    (sanitize_value v (.vList ts) c true na eqf = true ↔
      ((c = false ∧ ∃ t ∈ ts, eqf v t = true) ∨ (c = true ∧ ∀ t ∈ ts, eqf v t = false)))
    ∧ (∀ (t : PyVal) (rest : List PyVal), eqf v t = true →
        scanValue c (eqf v) (t :: rest) = !c) := by
  constructor
  · have hguard : (na && isNoneVal v) = false := by
      rcases Bool.eq_false_or_eq_true na with hna | hna
      · have hv : v ≠ PyVal.vNone := fun hv => h ⟨hna, hv⟩
        simp [hna, (isNoneVal_eq_false_iff v).mpr hv]
      · simp [hna]
    simp [sanitize_value, hguard, isIterable, iterElems, scanValue_eq_true_iff]
  · intro t rest ht
    simp [scanValue, ht]

/-- Witness for claim C4 at v = 4, targets = [1, 2, 3], complement = false,
none_allowed = false, equality = Python ==. -/
theorem sanitize_value_expand_iff_witness :
    ¬((false : Bool) = true ∧ PyVal.vInt 4 = PyVal.vNone) ∧
      (sanitize_value (PyVal.vInt 4)
          (.vList [PyVal.vInt 1, PyVal.vInt 2, PyVal.vInt 3]) false true false pyEq = true ↔
        ((false = false ∧
            ∃ t ∈ [PyVal.vInt 1, PyVal.vInt 2, PyVal.vInt 3], pyEq (PyVal.vInt 4) t = true) ∨
         (false = true ∧
            ∀ t ∈ [PyVal.vInt 1, PyVal.vInt 2, PyVal.vInt 3], pyEq (PyVal.vInt 4) t = false))) :=
  ⟨by simp,
   (sanitize_value_expand_iff (PyVal.vInt 4) [PyVal.vInt 1, PyVal.vInt 2, PyVal.vInt 3]
      false false pyEq (by simp)).1⟩

/-- Claim C1: a range check with complement and exactly one bound, after the
algebraic transformation of lines 293-304 (swap the bound to the opposite
side, negate its inclusivity, clear the complement flag), accepts exactly
the values accepted by the naive complement evaluation that treats the
missing bound as minus/plus infinity and negates the in-range test, for
every value and every inclusivity setting. -/
theorem sanitize_range_one_bound_complement_equiv (v b : ℚ) (mi ma : Bool) :
    (sanitize_range v (some b) none mi ma true = .ok ↔
        naiveComplementAccepts v (some b) none mi ma = true)
    ∧ (sanitize_range v none (some b) mi ma true = .ok ↔
        naiveComplementAccepts v none (some b) mi ma = true) := by
  constructor <;>
    cases mi <;> cases ma <;>
      simp [sanitize_range, minGtMax, rangeOutOfRange, naiveComplementAccepts, naiveInRange,
        not_lt, not_le]

/-- Claim C2: with both bounds given and minimum ≤ maximum, the
non-complement check with both inclusivity flags accepts exactly
minimum ≤ v ≤ maximum and the complement check accepts exactly its
negation; for every inclusive/exclusive combination, non-complement
accepts exactly the interval per inclusivity and complement accepts
exactly its outside, boundary values included. -/
theorem sanitize_range_two_bounds_truth_table (mn mx v : ℚ) (h : mn ≤ mx) :
    ((sanitize_range v (some mn) (some mx) true true false = .ok ↔ (mn ≤ v ∧ v ≤ mx))
      ∧ (sanitize_range v (some mn) (some mx) true true true = .ok ↔ ¬(mn ≤ v ∧ v ≤ mx)))
    ∧ ∀ mi ma : Bool,
        (sanitize_range v (some mn) (some mx) mi ma false = .ok ↔
          ((if mi = true then mn ≤ v else mn < v) ∧ (if ma = true then v ≤ mx else v < mx)))
        ∧ (sanitize_range v (some mn) (some mx) mi ma true = .ok ↔
          ¬((if mi = true then mn ≤ v else mn < v) ∧ (if ma = true then v ≤ mx else v < mx))) := by
  have hgt : ¬(mn > mx) := not_lt.mpr h
  have hg : minGtMax (some mn) (some mx) = false := by simp [minGtMax, hgt]
  constructor
  · constructor <;>
      simp [sanitize_range, hg, rangeOutOfRange, not_lt, not_le]
  · intro mi ma
    cases mi <;> cases ma <;> constructor <;>
      simp [sanitize_range, hg, rangeOutOfRange, not_lt, not_le]

/-- Witness for claim C2 at minimum = 0, maximum = 1, v = 1/2. -/
theorem sanitize_range_two_bounds_truth_table_witness :
    (0 : ℚ) ≤ 1 ∧
      (sanitize_range (1/2 : ℚ) (some 0) (some 1) true true false = .ok ↔
        ((0 : ℚ) ≤ 1/2 ∧ (1/2 : ℚ) ≤ 1)) :=
  ⟨by norm_num, (sanitize_range_two_bounds_truth_table 0 1 (1/2) (by norm_num)).1.1⟩

theorem any_isNoneVal_eq_false {xs : List PyVal} (h : PyVal.vNone ∉ xs) :
    xs.any isNoneVal = false := by
  rcases Bool.eq_false_or_eq_true (xs.any isNoneVal) with ht | hf
  · exfalso
    rcases List.any_eq_true.mp ht with ⟨e, he, hne⟩
    rw [isNoneVal_eq_true_iff] at hne
    exact h (hne ▸ he)
  · exact hf

/-- Claim C9: the custom per-element callback is invoked only on non-absent
elements: with None elements allowed, the collection check constrained by
a callback alone succeeds exactly when the callback accepts every
non-None element, whatever the callback would do on None. -/
theorem sanitize_iterable_callback_skips_absent (xs : List PyVal) (f : PyVal → Bool)
    (na : Bool) :
    sanitize_iterable (some xs) none none none none na true (some f) = .ok ↔
      ∀ e ∈ xs, e ≠ PyVal.vNone → f e = true := by
  rw [sanitize_iterable_some_eq xs none none none none na true (some f)
      (by simp) (by simp) (by simp) (by simp) (by simp)]
  simp [sanitize_iterable_body, nullElementsPresent, typePhaseRejects, exactLengthRejects,
    lengthRangeOutcome, callbackPhaseRejects, List.any_eq_true, isNoneVal_eq_false_iff]

/-- Claim C6: a collection containing an absent element, checked with
none_elements_allowed = False under any well-formed constraint descriptor,
raises the NullElement error, and none of the type, length, and callback
phases contributes to the outcome. -/
theorem sanitize_iterable_null_preempts (xs : List PyVal)
    (et : Option (PyType ⊕ List PyType)) (tl mn mx : Option Int) (na : Bool)
    (f : Option (PyVal → Bool))
    (hmem : PyVal.vNone ∈ xs)
    (htl : ∀ n ∈ tl, 0 ≤ n) (hmn : ∀ n ∈ mn, 0 ≤ n) (hmx : ∀ n ∈ mx, 0 ≤ n)
    (hconstraint : et ≠ none ∨ tl ≠ none ∨ mn ≠ none ∨ mx ≠ none ∨ f ≠ none)
    (hconflict : tl = none ∨ (mn = none ∧ mx = none)) :
    sanitize_iterable (some xs) et tl mn mx na false f = .nullElement := by
  rw [sanitize_iterable_some_eq xs et tl mn mx na false f htl hmn hmx hconstraint hconflict]
  have hany : xs.any isNoneVal = true := List.any_eq_true.mpr ⟨_, hmem, rfl⟩
  simp [sanitize_iterable_body, nullElementsPresent, hany]

/-- Witness for claim C6 on the collection [1, None, 3] with an element-type
constraint. -/
theorem sanitize_iterable_null_preempts_witness :
    PyVal.vNone ∈ [PyVal.vInt 1, PyVal.vNone, PyVal.vInt 3] ∧
      sanitize_iterable (some [PyVal.vInt 1, PyVal.vNone, PyVal.vInt 3])
        (some (.inl .tInt)) none none none false false none = .nullElement :=
  ⟨by simp,
   sanitize_iterable_null_preempts [PyVal.vInt 1, PyVal.vNone, PyVal.vInt 3]
     (some (.inl .tInt)) none none none false none (by simp) (by simp) (by simp)
     (by simp) (by simp) (by simp)⟩

/-- Claim C8: a collection check with an ill-formed constraint descriptor
raises a configuration error whatever the collection holds: when no
constraint at all is supplied, and when an exact length is combined with
a minimum or maximum length. -/
theorem sanitize_iterable_config_errors (arg_value : Option (List PyVal)) (na nea : Bool)
    (h : arg_value ≠ none ∨ na = true) :
    (sanitize_iterable arg_value none none none none na nea none = .configError)
    ∧ (∀ (et : Option (PyType ⊕ List PyType)) (t : Int) (mn mx : Option Int)
        (f : Option (PyVal → Bool)), (mn ≠ none ∨ mx ≠ none) →
        sanitize_iterable arg_value et (some t) mn mx na nea f = .configError) := by
  have hpres : (arg_value.isNone && !na) = false := by
    rcases h with h | h
    · rcases arg_value with _ | xs
      · exact absurd rfl h
      · simp
    · simp [h]
  constructor
  · simp [sanitize_iterable, hpres, negLen]
  · intro et t mn mx f hmnmx
    by_cases ht : t < 0
    · simp [sanitize_iterable, hpres, negLen, ht]
    · rcases mn with _ | m
      · rcases mx with _ | M
        · simp at hmnmx
        · by_cases hM : M < 0 <;> simp [sanitize_iterable, hpres, negLen, ht, hM]
      · by_cases hm : m < 0
        · simp [sanitize_iterable, hpres, negLen, ht, hm]
        · rcases mx with _ | M
          · simp [sanitize_iterable, hpres, negLen, ht, hm]
          · by_cases hM : M < 0 <;> simp [sanitize_iterable, hpres, negLen, ht, hm, hM]

/-- Witness for claim C8 on the empty collection. -/
theorem sanitize_iterable_config_errors_witness :
    ((some ([] : List PyVal) ≠ none ∨ (false : Bool) = true)) ∧
      sanitize_iterable (some ([] : List PyVal)) none none none none false false none =
        .configError :=
  ⟨Or.inl (by simp),
   (sanitize_iterable_config_errors (some []) false false (Or.inl (by simp))).1⟩

/-- Counterexample to claim C7 as stated: at the absent element None with the
value-check configuration (target 5, complement false, expand_target true,
none_allowed false, equality ==), the collection check with the curried
predicate accepts the collection [None] because the callback phase skips
None elements, while the direct value check on None rejects. -/
theorem sanitize_value_fn_roundtrip_cex :
    sanitize_iterable (some [PyVal.vNone]) none none none none false true
        (some (sanitize_value_fn (PyVal.vInt 5) false true false pyEq)) = .ok
    ∧ sanitize_value PyVal.vNone (PyVal.vInt 5) false true false pyEq = false := by
  constructor <;> rfl

/-- Claim C7 (amended): for every non-absent element x, feeding the curried
predicate built by sanitize_value_fn into the collection check's custom
element callback produces, on the collection [x], the same accept/reject
outcome as calling sanitize_value directly on x with the same
configuration. -/
theorem sanitize_value_fn_roundtrip (x target : PyVal) (c e vna na nea : Bool)
    (eqf : PyVal → PyVal → Bool) (hx : x ≠ PyVal.vNone) :
    sanitize_iterable (some [x]) none none none none na nea
        (some (sanitize_value_fn target c e vna eqf)) = .ok ↔
      sanitize_value x target c e vna eqf = true := by
  rw [sanitize_iterable_some_eq [x] none none none none na nea _
      (by simp) (by simp) (by simp) (by simp) (by simp)]
  have hnn : isNoneVal x = false := (isNoneVal_eq_false_iff x).mpr hx
  rcases Bool.eq_false_or_eq_true (sanitize_value x target c e vna eqf) with hv | hv <;>
    simp [sanitize_iterable_body, nullElementsPresent, typePhaseRejects, exactLengthRejects,
      lengthRangeOutcome, callbackPhaseRejects, sanitize_value_fn, hnn, hv]

/-- Witness for the amended claim C7 at x = 1, target 1, complement false,
expand_target true, none_allowed true, equality ==. -/
theorem sanitize_value_fn_roundtrip_witness :
    PyVal.vInt 1 ≠ PyVal.vNone ∧
      (sanitize_iterable (some [PyVal.vInt 1]) none none none none false false
          (some (sanitize_value_fn (PyVal.vInt 1) false true true pyEq)) = .ok ↔
        sanitize_value (PyVal.vInt 1) (PyVal.vInt 1) false true true pyEq = true) :=
  ⟨by simp,
   sanitize_value_fn_roundtrip (PyVal.vInt 1) (PyVal.vInt 1) false true true false false
     pyEq (by simp)⟩

theorem pyEq_int_int (a b : Int) : pyEq (.vInt a) (.vInt b) = (a == b) := rfl

/-- The exact-length test the collection check delegates to sanitize_value
(with its default arguments) is integer equality. -/
theorem sanitize_value_int_eq (a b : Int) :
    sanitize_value (.vInt a) (.vInt b) false true true pyEq = (a == b) := by
  simp [sanitize_value, isNoneVal, isIterable, pyEq_int_int]

/-- Claim C3: the outcome of each phase of the collection check is a function
of all of its own elements — the type phase rejects when any element
(not just the first) fails the type check, the callback phase rejects
when any non-None element fails the callback — while a failing
null-element phase alone preempts the type, length, and callback phases. -/
theorem sanitize_iterable_phases (xs : List PyVal)
    (et : Option (PyType ⊕ List PyType)) (tl mn mx : Option Int) (na nea : Bool)
    (f : Option (PyVal → Bool))
    (htl : ∀ n ∈ tl, 0 ≤ n) (hmn : ∀ n ∈ mn, 0 ≤ n) (hmx : ∀ n ∈ mx, 0 ≤ n)
    (hconstraint : et ≠ none ∨ tl ≠ none ∨ mn ≠ none ∨ mx ≠ none ∨ f ≠ none)
    (hconflict : tl = none ∨ (mn = none ∧ mx = none)) :
    ((nea = false ∧ PyVal.vNone ∈ xs) →
        sanitize_iterable (some xs) et tl mn mx na nea f = .nullElement)
    ∧ ((nea = true ∨ PyVal.vNone ∉ xs) →
        ∀ tt, et = some tt → (∃ e ∈ xs, sanitize_type e tt nea = false) →
          sanitize_iterable (some xs) et tl mn mx na nea f = .typeMismatch)
    ∧ ((nea = true ∨ PyVal.vNone ∉ xs) →
        (∀ tt, et = some tt → ∀ e ∈ xs, sanitize_type e tt nea = true) →
        ∀ t, tl = some t → (xs.length : Int) ≠ t →
          sanitize_iterable (some xs) et tl mn mx na nea f = .lengthViolation)
    ∧ ((nea = true ∨ PyVal.vNone ∉ xs) →
        (∀ tt, et = some tt → ∀ e ∈ xs, sanitize_type e tt nea = true) →
        (∀ t, tl = some t → (xs.length : Int) = t) →
        lengthRangeOutcome xs mn mx = .ok →
        ∀ g, f = some g → (∃ e ∈ xs, e ≠ PyVal.vNone ∧ g e = false) →
          sanitize_iterable (some xs) et tl mn mx na nea f = .customViolation) := by
  rw [sanitize_iterable_some_eq xs et tl mn mx na nea f htl hmn hmx hconstraint hconflict]
  have hnpOf : (nea = true ∨ PyVal.vNone ∉ xs) → nullElementsPresent xs nea = false := by
    intro hnull
    rcases hnull with h | h
    · simp [nullElementsPresent, h]
    · simp [nullElementsPresent, any_isNoneVal_eq_false h]
  have htypOf : (∀ tt, et = some tt → ∀ e ∈ xs, sanitize_type e tt nea = true) →
      typePhaseRejects xs et nea = false := by
    intro hall
    rcases et with _ | tt
    · rfl
    · simp only [typePhaseRejects, List.any_eq_false]
      intro e he
      simp [hall tt rfl e he]
  refine ⟨?_, ?_, ?_, ?_⟩
  · rintro ⟨h1, h2⟩
    have hany : xs.any isNoneVal = true := List.any_eq_true.mpr ⟨_, h2, rfl⟩
    simp [sanitize_iterable_body, nullElementsPresent, h1, hany]
  · intro hnull tt het hex
    subst het
    have htyp : typePhaseRejects xs (some tt) nea = true := by
      rcases hex with ⟨e, he, hf⟩
      exact List.any_eq_true.mpr ⟨e, he, by simp [hf]⟩
    simp [sanitize_iterable_body, hnpOf hnull, htyp]
  · intro hnull hall t htl' hne
    subst htl'
    have hlen : exactLengthRejects xs (some t) = true := by
      simp [exactLengthRejects, sanitize_value_int_eq, hne]
    simp [sanitize_iterable_body, hnpOf hnull, htypOf hall, hlen]
  · intro hnull hall hlen hrange g hg hex
    subst hg
    have hlenc : exactLengthRejects xs tl = false := by
      rcases tl with _ | t
      · rfl
      · simp [exactLengthRejects, sanitize_value_int_eq, hlen t rfl]
    have hcb : callbackPhaseRejects xs (some g) = true := by
      rcases hex with ⟨e, he, hne, hfe⟩
      refine List.any_eq_true.mpr ⟨e, he, ?_⟩
      simp [(isNoneVal_eq_false_iff e).mpr hne, hfe]
    simp [sanitize_iterable_body, hnpOf hnull, htypOf hall, hlenc, hrange, hcb]

/-- Witness for claim C3 on the collection [1, None] with an element-type
constraint and no None elements allowed: the null phase preempts. -/
theorem sanitize_iterable_phases_witness :
    PyVal.vNone ∈ [PyVal.vInt 1, PyVal.vNone] ∧
      sanitize_iterable (some [PyVal.vInt 1, PyVal.vNone]) (some (.inl .tInt))
        none none none false false none = .nullElement :=
  ⟨by simp,
   (sanitize_iterable_phases [PyVal.vInt 1, PyVal.vNone] (some (.inl .tInt))
       none none none false false none (by simp) (by simp) (by simp) (by simp)
       (by simp)).1 ⟨rfl, by simp⟩⟩

end Insanity
